import Mathlib

/-!
Verification of the whatsbox file-sharing server against its specification.

The development shallowly embeds the Go sources: the metadata store becomes
in-memory association lists, handlers become pure functions from a request and
an environment (capturing the results of external effects such as the upstream
media client, random id generation and database failures) to a new state and a
response, and machine integers become Int.  External cryptographic primitives
(SHA-256, bcrypt, JWT signing) are abstracted as function parameters: the
embedded code only passes their results around.
-/

namespace Whatsbox

/-! ## Models of Go standard-library primitives used by the sources -/

/-- Model of Go strconv.ParseInt(s, 10, 64): optional sign, at least one
decimal digit, value must fit in int64; anything else is an error (none). -/
def parseGoInt (s : String) : Option Int :=
  let signed : Int × List Char :=
    match s.toList with
    | '+' :: t => (1, t)
    | '-' :: t => (-1, t)
    | t => (1, t)
  if signed.2 = [] then none
  else if signed.2.all Char.isDigit then
    let n : Nat := signed.2.foldl (fun a c => a * 10 + (c.toNat - 48)) 0
    let v : Int := signed.1 * (n : Int)
    if -(2 ^ 63) ≤ v ∧ v < 2 ^ 63 then some v else none
  else none

/-- Model of Go strings.SplitN(s, " ", 2): split at the first space only. -/
def splitFirstSpaceAux : List Char → Option (List Char × List Char)
  | [] => none
  | ' ' :: t => some ([], t)
  | c :: t =>
    match splitFirstSpaceAux t with
    | none => none
    | some (a, b) => some (c :: a, b)

/-- Model of Go strings.SplitN(pair, " ", 2). -/
def goSplitN2Space (s : String) : List String :=
  match splitFirstSpaceAux s.toList with
  | none => [s]
  | some (a, b) => [String.mk a, String.mk b]

/-- Value of a standard base64 alphabet character. -/
def b64Val (c : Char) : Option Nat :=
  if 'A' ≤ c ∧ c ≤ 'Z' then some (c.toNat - 65)
  else if 'a' ≤ c ∧ c ≤ 'z' then some (c.toNat - 97 + 26)
  else if '0' ≤ c ∧ c ≤ '9' then some (c.toNat - 48 + 52)
  else if c = '+' then some 62
  else if c = '/' then some 63
  else none

/-- Decode base64 quanta of four characters; the final quantum may carry one
or two padding characters.  Stray padding or leftover characters fail, as in
Go encoding/base64 StdEncoding. -/
def decodeB64Chars : List Char → Option (List Nat)
  | [] => some []
  | a :: b :: c :: d :: rest =>
    match b64Val a, b64Val b with
    | some va, some vb =>
      if c = '=' then
        if d = '=' ∧ rest = [] then some [va * 4 + vb / 16] else none
      else
        match b64Val c with
        | some vc =>
          if d = '=' then
            if rest = [] then some [va * 4 + vb / 16, (vb % 16) * 16 + vc / 4]
            else none
          else
            match b64Val d with
            | some vd =>
              match decodeB64Chars rest with
              | some t =>
                some ((va * 4 + vb / 16) :: ((vb % 16) * 16 + vc / 4) ::
                      ((vc % 4) * 64 + vd) :: t)
              | none => none
            | none => none
        | none => none
    | _, _ => none
  | _ => none

/-- Model of Go base64.StdEncoding.DecodeString: carriage returns and
newlines are ignored, padding is mandatory. -/
def goBase64Decode (s : String) : Option (List Nat) :=
  decodeB64Chars (s.toList.filter (fun c => c ≠ '\r' ∧ c ≠ '\n'))

/-- Go byte strings as Lean strings, one character per byte (the sources only
compare these against ASCII literals and parse ASCII digits from them). -/
def byteStr (bs : List Nat) : String :=
  String.mk (bs.map (fun b => Char.ofNat b))

/-- Go map[string]string write m[k] = v: overwrite if the key is present,
otherwise add the binding. -/
def mapInsert (m : List (String × String)) (k v : String) : List (String × String) :=
  if m.any (fun p => p.1 = k) then
    m.map (fun p => if p.1 = k then (k, v) else p)
  else m ++ [(k, v)]

/-- Go map[string]string read m[k]: the empty string when the key is absent. -/
def metaLookupD (m : List (String × String)) (k : String) : String :=
  ((m.find? (fun p => p.1 = k)).map (fun p => p.2)).getD ""

/-! ## utils.SanitizeFilename (src/unnamed/part_001) -/

/-- Model of Go filepath.Base on a slash-separated path. -/
def goFilepathBase (path : String) : String :=
  if path = "" then "."
  else
    let noTrail := ((path.toList.reverse.dropWhile (fun c => c = '/')).reverse)
    let last := (noTrail.reverse.takeWhile (fun c => c ≠ '/')).reverse
    if last = [] then "/" else String.mk last

/-- utils.SanitizeFilename: keep only the base name, drop null bytes, strip
leading dots, trim surrounding whitespace, default to unnamed_file. -/
def sanitizeFilename (filename : String) : String :=
  let f := goFilepathBase filename
  let f := String.mk (f.toList.filter (fun c => c ≠ Char.ofNat 0))
  let f := String.mk (f.toList.dropWhile (fun c => c = '.'))
  let f := f.trim
  if f = "" then "unnamed_file" else f

/-! ## parseUploadMetadata (tus handler, bottom of the handlers source) -/

/-- The body of the parseUploadMetadata loop for one comma-separated entry:
trim it, split at the first space, decode the base64 value; malformed entries
produce none and are skipped by the caller. -/
def decodeMetaPair (pair : String) : Option (String × String) :=
  let p := pair.trim
  match goSplitN2Space p with
  | [k, v] =>
    match goBase64Decode v.trim with
    | some bytes => some (k.trim, byteStr bytes)
    | none => none
  | _ => none

/-- parseUploadMetadata: fold the entries of the comma-separated
Upload-Metadata header into a map, silently skipping malformed entries. -/
def parseUploadMetadata (header : String) : List (String × String) :=
  if header = "" then []
  else
    (header.splitOn ",").foldl
      (fun m pair =>
        match decodeMetaPair pair with
        | some (k, v) => mapInsert m k v
        | none => m)
      []

/-- The well-formed entries of an Upload-Metadata header, in order (the
specification side of the C10 comparison). -/
def wellFormedMetaPairs (header : String) : List (String × String) :=
  if header = "" then [] else (header.splitOn ",").filterMap decodeMetaPair

/-- The map built from a list of key/value pairs, later pairs overwriting
earlier ones with the same key. -/
def metaMapOfPairs (ps : List (String × String)) : List (String × String) :=
  ps.foldl (fun m p => mapInsert m p.1 p.2) []

/-! ## Data model (src/internal/database/models.go) -/

/-- A row of the files table. -/
structure FileRow where
  id : String
  filename : String
  mimeType : String
  fileSize : Int
  fileHash : String
  description : Option String
  directPath : String
  mediaKey : List Nat
  fileEncHash : List Nat
  fileSHA256 : Option (List Nat)
  passwordHash : Option String
  maxDownloads : Option Int
  downloadCount : Int
  createdAt : Int
  expiresAt : Int
  status : String
  deriving Repr, DecidableEq

/-- A row of the uploads table (in-progress resumable upload).  The
created_at/updated_at audit columns are not modelled: no verified property
reads them. -/
structure UploadRow where
  id : String
  filename : Option String
  fileSize : Option Int
  offset : Int
  metadata : Option String
  deriving Repr, DecidableEq

/-- A row of the access_log table. -/
structure AccessLogRow where
  fileID : String
  action : String
  ipAddress : String
  userAgent : String
  createdAt : Int
  deriving Repr, DecidableEq

/-- The server state the verified handlers touch: the files and uploads
tables, the temp directory (uploadID to byte contents of uploadID.tmp), and
the access log. -/
structure ServerState where
  files : List FileRow
  uploads : List UploadRow
  temps : List (String × List Nat)
  logs : List AccessLogRow
  deriving Repr, DecidableEq

/-- SELECT from files WHERE id = ? (id is the primary key). -/
def getFileByID (files : List FileRow) (id : String) : Option FileRow :=
  files.find? (fun f => f.id = id)

/-- SELECT from uploads WHERE id = ? (id is the primary key). -/
def getUploadByID (uploads : List UploadRow) (id : String) : Option UploadRow :=
  uploads.find? (fun u => u.id = id)

/-- The temp file backing an upload id, when it exists on disk. -/
def getTemp (temps : List (String × List Nat)) (id : String) : Option (List Nat) :=
  (temps.find? (fun p => p.1 = id)).map (fun p => p.2)

/-! ## Store: atomic download-count increment -/

/-- Errors reported by the download-count increment: the distinguished cap
signal, or a generic database failure. -/
inductive IncErr where
  | capReached
  | dbFailure
  deriving Repr, DecidableEq

/-- The WHERE clause of the cap-checked UPDATE:
id = ? AND (max_downloads IS NULL OR download_count < max_downloads). -/
def capRowMatches (id : String) (f : FileRow) : Bool :=
  f.id == id &&
    (match f.maxDownloads with
     | none => true
     | some m => f.downloadCount < m)

/-- Modelled from the spec: FileRepository.IncrementDownloadCountAtomically is
called by FileHandler.Download but its definition is not among the sources
(only the unconditional IncrementDownloadCount is).  Spec section 4.A: a single
statement increments download_count WHERE id = ? AND (max_downloads IS NULL OR
download_count < max_downloads); when zero rows were affected the store
returns a distinguished cap-reached signal; connection errors are propagated
(here injected through dbFail, leaving the table unchanged). -/
def incrementDownloadCountAtomically (dbFail : Bool) (files : List FileRow)
    (id : String) : List FileRow × Option IncErr :=
  if dbFail then (files, some .dbFailure)
  else if files.any (capRowMatches id) then
    (files.map (fun f =>
       if capRowMatches id f then { f with downloadCount := f.downloadCount + 1 } else f),
     none)
  else (files, some .capReached)

/-- The per-row download-cap invariant: download_count never exceeds a set
max_downloads. -/
def capOK (f : FileRow) : Prop :=
  match f.maxDownloads with
  | none => True
  | some m => f.downloadCount ≤ m

instance : DecidablePred capOK := fun f => by
  unfold capOK
  exact match f.maxDownloads with
  | none => inferInstanceAs (Decidable True)
  | some _ => inferInstanceAs (Decidable (_ ≤ _))

/-- The download-cap invariant over the whole files table. -/
def capInvariant (files : List FileRow) : Prop :=
  ∀ f ∈ files, capOK f

/-- Applying the cap-checked increment for each id of a list in turn. -/
def incrementMany (files : List FileRow) (ids : List String) : List FileRow :=
  ids.foldl (fun d i => (incrementDownloadCountAtomically false d i).1) files

/-! ## External primitives consumed by the handlers -/

/-- Cryptographic and content-sniffing primitives from outside the core
(crypto/sha256, bcrypt, net/http sniffing): the handlers only thread their
results through, so they are abstracted as functions. -/
structure CryptoFns where
  hashFile : List Nat → String
  hashPassword : String → Option String
  checkPassword : String → String → Bool
  detectContentType : List Nat → String

/-- Relevant configuration fields (src/internal/config/config.go).
utils.GetMediaType (absent from the sources; per spec section 4.B it maps the
MIME prefix to a media kind for the upstream call only) is not modelled: the
upstream call results are environment inputs here and the kind never affects
local policy. -/
structure Cfg where
  maxUploadSize : Int
  defaultExpiryDays : Int
  maxExpiryDays : Int
  deriving Repr, DecidableEq

/-! ## Expiry computation, shared verbatim by FileHandler.Upload and
TusHandler.processCompletedUpload -/

/-- The expires_in handling, line for line identical in the simple upload
handler and in the completion step: start from the configured default, and
when the field parses to a positive number of seconds whose whole number of
days lies in [1, MaxExpiryDays], use that number of days. -/
def calcExpiryDays (defaultDays maxDays : Int) (expiresInStr : String) : Int :=
  if expiresInStr = "" then defaultDays
  else
    match parseGoInt expiresInStr with
    | some seconds =>
      if seconds > 0 then
        let days := seconds / 86400
        if days > 0 ∧ days ≤ maxDays then days else defaultDays
      else defaultDays
    | none => defaultDays

/-- expires_at = now + expiryDays * 24h, with time in seconds. -/
def calcExpiresAt (defaultDays maxDays : Int) (expiresInStr : String) (now : Int) : Int :=
  now + calcExpiryDays defaultDays maxDays expiresInStr * 86400

/-- The clamp the specification describes for expires_in: values below one
day raise to one day, values above MaxExpiryDays lower to MaxExpiryDays
(the specification side of the C6 comparison). -/
def specClampExpiryDays (defaultDays maxDays : Int) (expiresInStr : String) : Int :=
  if expiresInStr = "" then defaultDays
  else
    match parseGoInt expiresInStr with
    | some seconds =>
      if seconds > 0 then max 1 (min (seconds / 86400) maxDays) else defaultDays
    | none => defaultDays

/-- The max_downloads parsing shared by both upload paths: a positive integer
sets the cap, anything else leaves it NULL. -/
def parseMaxDownloads (s : String) : Option Int :=
  if s = "" then none
  else
    match parseGoInt s with
    | some v => if v > 0 then some v else none
    | none => none

/-! ## FileHandler.Download (src/internal/handlers/files.go) -/

/-- External outcomes consumed by one download request: the current time, the
upstream connection flag, the result of the upstream fetch, whether the
download-count UPDATE fails at the database, and the client address data that
lands in the access log. -/
structure DownloadEnv where
  now : Int
  isConnected : Bool
  waDownload : Option (List Nat)
  incDbFail : Bool
  ip : String
  userAgent : String
  deriving Repr, DecidableEq

/-- A download request: the id path parameter, the X-Password header and the
password query parameter. -/
structure DownloadRequest where
  id : String
  xPassword : String
  queryPassword : String
  deriving Repr, DecidableEq

/-- A download response: status code, machine error code, body bytes and the
Content-Disposition header. -/
structure DownloadResponse where
  status : Nat
  errorCode : Option String := none
  body : Option (List Nat) := none
  contentDisposition : Option String := none
  deriving Repr, DecidableEq

/-- The tail of FileHandler.Download after the policy gates: connection
check, upstream fetch, cap-checked increment (a capReached signal turns into
410 download_limit_reached, any other increment error is only logged), access
log, 200 with the bytes. -/
def downloadServe (env : DownloadEnv) (st : ServerState) (f : FileRow)
    (fileID : String) : ServerState × DownloadResponse :=
  if ¬ env.isConnected then
    (st, { status := 503, errorCode := some "whatsapp_not_connected" })
  else
    match env.waDownload with
    | none => (st, { status := 500, errorCode := some "download_failed" })
    | some data =>
      let inc := incrementDownloadCountAtomically env.incDbFail st.files fileID
      match inc.2 with
      | some .capReached =>
        ({ st with files := inc.1 },
         { status := 410, errorCode := some "download_limit_reached" })
      | _ =>
        ({ st with
             files := inc.1,
             logs := st.logs ++ [{ fileID := fileID, action := "download",
                                   ipAddress := env.ip, userAgent := env.userAgent,
                                   createdAt := env.now }] },
         { status := 200, body := some data,
           contentDisposition := some ("attachment; filename=\"" ++ f.filename ++ "\"") })

/-- FileHandler.Download: lookup, expiry gate (status expired or now past
expires_at), deleted gate, password gate, then downloadServe. -/
def downloadHandler (fx : CryptoFns) (env : DownloadEnv) (st : ServerState)
    (req : DownloadRequest) : ServerState × DownloadResponse :=
  if req.id = "" then (st, { status := 400, errorCode := some "missing_id" })
  else
    match getFileByID st.files req.id with
    | none => (st, { status := 404, errorCode := some "not_found" })
    | some f =>
      if f.status = "expired" ∨ env.now > f.expiresAt then
        (st, { status := 410, errorCode := some "file_expired" })
      else if f.status = "deleted" then
        (st, { status := 410, errorCode := some "file_deleted" })
      else
        match f.passwordHash with
        | some ph =>
          let pwd := if req.xPassword ≠ "" then req.xPassword else req.queryPassword
          if pwd = "" then
            (st, { status := 401, errorCode := some "password_required" })
          else if ¬ fx.checkPassword pwd ph then
            ({ st with logs := st.logs ++ [{ fileID := req.id, action := "password_fail",
                                             ipAddress := env.ip, userAgent := env.userAgent,
                                             createdAt := env.now }] },
             { status := 401, errorCode := some "invalid_password" })
          else downloadServe env st f req.id
        | none => downloadServe env st f req.id

/-- The password gate of FileHandler.Download lets the request through. -/
def passwordGatePasses (fx : CryptoFns) (req : DownloadRequest) (f : FileRow) : Prop :=
  match f.passwordHash with
  | none => True
  | some ph =>
    (if req.xPassword ≠ "" then req.xPassword else req.queryPassword) ≠ "" ∧
    fx.checkPassword (if req.xPassword ≠ "" then req.xPassword else req.queryPassword) ph = true

/-! ## TusHandler (resumable uploads, second half of the handlers source) -/

/-- A tus PATCH request: protocol version header, id path parameter,
Upload-Offset and Content-Type headers, body bytes. -/
structure PatchRequest where
  tusResumable : String
  id : String
  uploadOffset : String
  contentType : String
  body : List Nat
  deriving Repr, DecidableEq

/-- A tus handler response; spawnCompletion records that the handler spawned
the detached completion step. -/
structure TusResult where
  status : Nat
  errorCode : Option String := none
  currentOffset : Option Int := none
  newOffset : Option Int := none
  location : Option String := none
  spawnCompletion : Bool := false
  deriving Repr, DecidableEq

/-- TusHandler.Patch: version gate, id gate, row lookup, Upload-Offset parse,
offset-conflict gate (409 with the current offset), content-type gate, append
the body to the temp file, advance the stored offset, and when the new offset
reaches the declared size flag the completion step; reply 204 with the new
offset. -/
def tusPatch (st : ServerState) (req : PatchRequest) : ServerState × TusResult :=
  if req.tusResumable ≠ "1.0.0" then
    (st, { status := 412, errorCode := some "unsupported_version" })
  else if req.id = "" then
    (st, { status := 400, errorCode := some "missing_id" })
  else
    match getUploadByID st.uploads req.id with
    | none => (st, { status := 404, errorCode := some "not_found" })
    | some u =>
      match parseGoInt req.uploadOffset with
      | none => (st, { status := 400, errorCode := some "invalid_offset" })
      | some clientOffset =>
        if clientOffset ≠ u.offset then
          (st, { status := 409, errorCode := some "offset_mismatch",
                 currentOffset := some u.offset })
        else if req.contentType ≠ "application/offset+octet-stream" then
          (st, { status := 415, errorCode := some "invalid_content_type" })
        else
          match getTemp st.temps req.id with
          | none => (st, { status := 500, errorCode := some "temp_file_failed" })
          | some _ =>
            let newOffset := u.offset + (req.body.length : Int)
            let st1 : ServerState :=
              { st with
                  uploads := st.uploads.map (fun w =>
                    if w.id = req.id then { w with offset := newOffset } else w),
                  temps := st.temps.map (fun p =>
                    if p.1 = req.id then (p.1, p.2 ++ req.body) else p) }
            let spawn : Bool :=
              match u.fileSize with
              | some size => decide (newOffset ≥ size)
              | none => false
            (st1, { status := 204, newOffset := some newOffset,
                    spawnCompletion := spawn })

/-- A tus CREATE request. -/
structure CreateRequest where
  tusResumable : String
  uploadLength : String
  uploadMetadata : String
  deriving Repr, DecidableEq

/-- External outcomes consumed by one CREATE request: the generated upload id
(none when random generation fails), and whether the row insert and the temp
file creation succeed. -/
structure CreateEnv where
  newUploadID : Option String
  insertOk : Bool
  tempCreateOk : Bool
  deriving Repr, DecidableEq

/-- TusHandler.Create: version gate, Upload-Length parse and positivity,
max-size gate, metadata parse and filename sanitization, id generation, row
insert, temp file creation (rolling the row back on failure), 201 with the
Location header. -/
def tusCreate (cfg : Cfg) (env : CreateEnv) (st : ServerState)
    (req : CreateRequest) : ServerState × TusResult :=
  if req.tusResumable ≠ "1.0.0" then
    (st, { status := 412, errorCode := some "unsupported_version" })
  else
    match parseGoInt req.uploadLength with
    | none => (st, { status := 400, errorCode := some "invalid_length" })
    | some uploadLength =>
      if uploadLength ≤ 0 then
        (st, { status := 400, errorCode := some "invalid_length" })
      else if uploadLength > cfg.maxUploadSize then
        (st, { status := 413, errorCode := some "file_too_large" })
      else
        let metadata := parseUploadMetadata req.uploadMetadata
        let filename0 := sanitizeFilename (metaLookupD metadata "filename")
        let filename := if filename0 = "" then "unnamed_file" else filename0
        match env.newUploadID with
        | none => (st, { status := 500, errorCode := some "id_generation_failed" })
        | some uploadID =>
          if ¬ env.insertOk then
            (st, { status := 500, errorCode := some "create_failed" })
          else
            let st1 : ServerState :=
              { st with uploads := st.uploads ++
                  [{ id := uploadID, filename := some filename,
                     fileSize := some uploadLength, offset := 0,
                     metadata := some req.uploadMetadata }] }
            if ¬ env.tempCreateOk then
              ({ st1 with uploads := st1.uploads.filter (fun u => u.id ≠ uploadID) },
               { status := 500, errorCode := some "temp_file_failed" })
            else
              ({ st1 with temps := st1.temps ++ [(uploadID, [])] },
               { status := 201, location := some ("/api/upload/" ++ uploadID) })

/-- TusHandler.Head: id gate, lookup, 200 with the current offset and the
declared length in headers. -/
def tusHead (st : ServerState) (id : String) : TusResult :=
  if id = "" then { status := 400, errorCode := some "missing_id" }
  else
    match getUploadByID st.uploads id with
    | none => { status := 404, errorCode := some "not_found" }
    | some u =>
      { status := 200, currentOffset := some u.offset, newOffset := u.fileSize }

/-- TusHandler.Delete: id gate, lookup, remove the temp file and the row,
204. -/
def tusDelete (st : ServerState) (id : String) : ServerState × TusResult :=
  if id = "" then (st, { status := 400, errorCode := some "missing_id" })
  else
    match getUploadByID st.uploads id with
    | none => (st, { status := 404, errorCode := some "not_found" })
    | some _ =>
      ({ st with temps := st.temps.filter (fun p => p.1 ≠ id),
                 uploads := st.uploads.filter (fun u => u.id ≠ id) },
       { status := 204 })

/-! ## TusHandler.processCompletedUpload (detached completion step) -/

/-- The handle returned by the upstream media client on upload. -/
structure WAUploadResp where
  directPath : String
  mediaKey : List Nat
  fileEncHash : List Nat
  fileSHA256 : List Nat
  deriving Repr, DecidableEq

/-- External outcomes consumed by one run of the completion step: the current
time, the upstream connection flag, the upstream upload result, the generated
file id, and whether the files insert succeeds. -/
structure CompletionEnv where
  now : Int
  isConnected : Bool
  waUpload : Option WAUploadResp
  newFileID : Option String
  insertOk : Bool
  deriving Repr, DecidableEq

/-- The body of processCompletedUpload before its deferred cleanup:
connection check, temp file read, hash, metadata parse (filename,
description, password, expires_in, max_downloads), password hash (a hashing
error only leaves the hash NULL), MIME sniff, upstream upload, file id
generation, files insert.  Every error branch returns with the state
unchanged; only the success path appends the new File row. -/
def processCompletedUploadBody (fx : CryptoFns) (cfg : Cfg) (env : CompletionEnv)
    (st : ServerState) (uploadID : String) (upload : UploadRow) : ServerState :=
  if ¬ env.isConnected then st
  else
    match getTemp st.temps uploadID with
    | none => st
    | some fileData =>
      let fileHash := fx.hashFile fileData
      let metadata := parseUploadMetadata (upload.metadata.getD "")
      let filename0 := sanitizeFilename (metaLookupD metadata "filename")
      let filename := if filename0 = "" then "unnamed_file" else filename0
      let description := metaLookupD metadata "description"
      let password := metaLookupD metadata "password"
      let expiryDays := calcExpiryDays cfg.defaultExpiryDays cfg.maxExpiryDays
        (metaLookupD metadata "expires_in")
      let expiresAt := env.now + expiryDays * 86400
      let maxDownloads := parseMaxDownloads (metaLookupD metadata "max_downloads")
      let passwordHash := if password ≠ "" then fx.hashPassword password else none
      let mimeType := fx.detectContentType fileData
      match env.waUpload with
      | none => st
      | some resp =>
        match env.newFileID with
        | none => st
        | some fileID =>
          if ¬ env.insertOk then st
          else
            { st with files := st.files ++
                [{ id := fileID, filename := filename, mimeType := mimeType,
                   fileSize := (fileData.length : Int), fileHash := fileHash,
                   description := if description ≠ "" then some description else none,
                   directPath := resp.directPath, mediaKey := resp.mediaKey,
                   fileEncHash := resp.fileEncHash, fileSHA256 := some resp.fileSHA256,
                   passwordHash := passwordHash, maxDownloads := maxDownloads,
                   downloadCount := 0, createdAt := env.now, expiresAt := expiresAt,
                   status := "active" }] }

/-- The deferred cleanup of processCompletedUpload: remove the temp file and
delete the Upload row. -/
def completionCleanup (st : ServerState) (uploadID : String) : ServerState :=
  { st with temps := st.temps.filter (fun p => p.1 ≠ uploadID),
            uploads := st.uploads.filter (fun u => u.id ≠ uploadID) }

/-- processCompletedUpload: run the body, then the deferred cleanup runs on
every exit path. -/
def processCompletedUpload (fx : CryptoFns) (cfg : Cfg) (env : CompletionEnv)
    (st : ServerState) (uploadID : String) (upload : UploadRow) : ServerState :=
  completionCleanup (processCompletedUploadBody fx cfg env st uploadID upload) uploadID

/-! ## Admin auth middleware (src/unnamed/part_002) -/

/-- Admin configuration consumed by the auth middleware. -/
structure AdminCfg where
  adminPassword : String
  adminSessionSecret : String
  deriving Repr, DecidableEq

/-- What the AdminAuth middleware does with a request: reject it with a
status and error code, or hand it to the protected handler. -/
inductive AuthOutcome where
  | reject (status : Nat) (errorCode : String)
  | proceed
  deriving Repr, DecidableEq

/-- middleware.AdminAuth: 503 auth_not_configured when no admin password is
set, otherwise cookie presence and JWT validation (validJWT abstracts the JWT
library check against the session secret). -/
def adminAuth (validJWT : String → String → Bool) (cfg : AdminCfg)
    (cookieToken : String) : AuthOutcome :=
  if cfg.adminPassword = "" then .reject 503 "auth_not_configured"
  else if cookieToken = "" then .reject 401 "unauthorized"
  else if ¬ validJWT cookieToken cfg.adminSessionSecret then .reject 401 "unauthorized"
  else .proceed

/-- A login response: status and machine error code. -/
structure LoginResponse where
  status : Nat
  errorCode : Option String := none
  deriving Repr, DecidableEq

/-- middleware.Login: 400 auth_disabled when no admin password is set, then
body parse, constant-time password comparison (equality), JWT signing
(signedToken is none when signing fails), 200 on success. -/
def adminLogin (signedToken : Option String) (cfg : AdminCfg)
    (bodyPassword : Option String) : LoginResponse :=
  if cfg.adminPassword = "" then { status := 400, errorCode := some "auth_disabled" }
  else
    match bodyPassword with
    | none => { status := 400, errorCode := some "invalid_request" }
    | some pwd =>
      if pwd ≠ cfg.adminPassword then
        { status := 401, errorCode := some "invalid_credentials" }
      else
        match signedToken with
        | none => { status := 500, errorCode := some "token_generation_failed" }
        | some _ => { status := 200 }

/-! ## Stats collector and hourly flush (src/internal/stats/collector.go,
scheduler in src/unnamed/part_000) -/

/-- The six resettable counters of the stats collector (the two gauges are
not flushed and not reset, and stay outside this model). -/
structure Counters where
  uploadsTotal : Int := 0
  downloadsTotal : Int := 0
  bytesUploaded : Int := 0
  bytesDownloaded : Int := 0
  uploadErrors : Int := 0
  downloadErrors : Int := 0
  deriving Repr, DecidableEq

/-- Component-wise addition of counter vectors. -/
def addCounters (a b : Counters) : Counters :=
  { uploadsTotal := a.uploadsTotal + b.uploadsTotal,
    downloadsTotal := a.downloadsTotal + b.downloadsTotal,
    bytesUploaded := a.bytesUploaded + b.bytesUploaded,
    bytesDownloaded := a.bytesDownloaded + b.bytesDownloaded,
    uploadErrors := a.uploadErrors + b.uploadErrors,
    downloadErrors := a.downloadErrors + b.downloadErrors }

/-- A row of the stats_hourly table. -/
structure HourRow where
  uploads : Int := 0
  downloads : Int := 0
  uploadBytes : Int := 0
  downloadBytes : Int := 0
  failedUploads : Int := 0
  failedDownloads : Int := 0
  requests : Int := 0
  deriving Repr, DecidableEq

/-- Component-wise addition of stats_hourly rows (the DO UPDATE arm of the
upsert adds the excluded row to the stored one). -/
def addRow (a b : HourRow) : HourRow :=
  { uploads := a.uploads + b.uploads,
    downloads := a.downloads + b.downloads,
    uploadBytes := a.uploadBytes + b.uploadBytes,
    downloadBytes := a.downloadBytes + b.downloadBytes,
    failedUploads := a.failedUploads + b.failedUploads,
    failedDownloads := a.failedDownloads + b.failedDownloads,
    requests := a.requests + b.requests }

/-- The row FlushHourly writes: the counter snapshot, with requests fixed to
zero. -/
def countersToRow (c : Counters) : HourRow :=
  { uploads := c.uploadsTotal, downloads := c.downloadsTotal,
    uploadBytes := c.bytesUploaded, downloadBytes := c.bytesDownloaded,
    failedUploads := c.uploadErrors, failedDownloads := c.downloadErrors,
    requests := 0 }

/-- StatsRepository.SaveHourly: INSERT OR on hour conflict add each column
(hour is the primary key, so at most one row carries each hour). -/
def saveHourly (db : List (Int × HourRow)) (hour : Int) (row : HourRow) :
    List (Int × HourRow) :=
  match db with
  | [] => [(hour, row)]
  | p :: t => if p.1 = hour then (p.1, addRow p.2 row) :: t else p :: saveHourly t hour row

/-- The stats_hourly row stored under an hour, read as all zeroes when the
row is absent. -/
def rowAt (db : List (Int × HourRow)) (hour : Int) : HourRow :=
  ((db.find? (fun p => p.1 = hour)).map (fun p => p.2)).getD {}

/-- Collector.FlushHourly at a fixed hour: snapshot the counters and upsert
the snapshot into stats_hourly. -/
def flushHourly (hour : Int) (c : Counters) (db : List (Int × HourRow)) :
    List (Int × HourRow) :=
  saveHourly db hour (countersToRow c)

/-- Counters plus the stats_hourly table. -/
structure StatsState where
  counters : Counters
  db : List (Int × HourRow)
  deriving Repr, DecidableEq

/-- Events of the stats subsystem while the current hour is fixed: record
some atomic counter increments, or run the scheduler aggregation step
(Collector.FlushHourly followed by Collector.Reset, as in
Scheduler.aggregateStats; the startup flush is this step on all-zero
counters, and the shutdown flush is final so its missing reset changes no
row). -/
inductive StatsOp where
  | record (d : Counters)
  | aggregate
  deriving Repr, DecidableEq

/-- One stats event. -/
def statsStep (hour : Int) (s : StatsState) : StatsOp → StatsState
  | .record d => { s with counters := addCounters s.counters d }
  | .aggregate => { counters := {}, db := flushHourly hour s.counters s.db }

/-- Run a sequence of stats events. -/
def runStats (hour : Int) (s : StatsState) (ops : List StatsOp) : StatsState :=
  ops.foldl (statsStep hour) s

/-- The delta each flush writes: the counter value at flush time, given the
counters accumulated so far. -/
def flushDeltas (c : Counters) : List StatsOp → List Counters
  | [] => []
  | .record d :: t => flushDeltas (addCounters c d) t
  | .aggregate :: t => c :: flushDeltas {} t

/-- Component-wise sum of a list of counter vectors. -/
def sumCounters (l : List Counters) : Counters :=
  l.foldr addCounters {}

/-- The element-wise total of every increment recorded in a sequence of
stats events. -/
def totalRecorded (ops : List StatsOp) : Counters :=
  sumCounters (ops.filterMap (fun op =>
    match op with
    | .record d => some d
    | .aggregate => none))

/-! ## Helper lemmas -/

/-- Looking an id up after filtering that id out finds nothing. -/
theorem getUploadByID_filter_ne (l : List UploadRow) (id : String) :
    getUploadByID (l.filter (fun u => u.id ≠ id)) id = none := by
  unfold getUploadByID
  rw [List.find?_eq_none]
  intro x hx
  have hmem := (List.mem_filter.mp hx).2
  simp only [ne_eq, decide_not, Bool.not_eq_eq_eq_not, Bool.not_true,
    decide_eq_false_iff_not] at hmem
  simpa using hmem

/-- Removing an id from the temp directory removes its temp file. -/
theorem getTemp_filter_ne (l : List (String × List Nat)) (id : String) :
    getTemp (l.filter (fun p => p.1 ≠ id)) id = none := by
  unfold getTemp
  have hfind : (List.filter (fun p => p.1 ≠ id) l).find? (fun p => p.1 = id) = none := by
    rw [List.find?_eq_none]
    intro x hx
    have hmem := (List.mem_filter.mp hx).2
    simp only [ne_eq, decide_not, Bool.not_eq_eq_eq_not, Bool.not_true,
      decide_eq_false_iff_not] at hmem
    simpa using hmem
  rw [hfind]
  rfl

/-- Updating the offsets of the rows carrying an id commutes with looking
that id up. -/
theorem getUploadByID_map_update (l : List UploadRow) (id : String) (off : Int) :
    getUploadByID (l.map (fun w => if w.id = id then { w with offset := off } else w)) id
      = (getUploadByID l id).map
          (fun w => if w.id = id then { w with offset := off } else w) := by
  unfold getUploadByID
  rw [List.find?_map]
  have hpred : ((fun u : UploadRow => decide (u.id = id)) ∘
      (fun w : UploadRow => if w.id = id then { w with offset := off } else w))
      = fun w : UploadRow => decide (w.id = id) := by
    funext w
    by_cases h : w.id = id <;> simp [h]
  rw [hpred]

/-! ## C8 -/

/-- C8 counterexample: with no admin password configured, POST
/api/admin/login answers 400 auth_disabled, not 503 auth_not_configured. -/
theorem admin_login_unconfigured_counterexample :
    adminLogin (some "tok") { adminPassword := "", adminSessionSecret := "s" } (some "pw")
      = { status := 400, errorCode := some "auth_disabled" }
    ∧ (adminLogin (some "tok") { adminPassword := "", adminSessionSecret := "s" }
        (some "pw")).status ≠ 503
    ∧ (adminLogin (some "tok") { adminPassword := "", adminSessionSecret := "s" }
        (some "pw")).errorCode ≠ some "auth_not_configured" := by
  refine ⟨rfl, ?_, ?_⟩ <;> decide

/-- C8 amended: with no admin password configured, every endpoint guarded by
the AdminAuth middleware answers 503 auth_not_configured, while POST
/api/admin/login answers 400 auth_disabled. -/
theorem admin_unconfigured (validJWT : String → String → Bool) (cfg : AdminCfg)
    (cookieToken : String) (signedToken : Option String) (bodyPassword : Option String)
    (h : cfg.adminPassword = "") :
    adminAuth validJWT cfg cookieToken = .reject 503 "auth_not_configured"
    ∧ adminLogin signedToken cfg bodyPassword
        = { status := 400, errorCode := some "auth_disabled" } := by
  constructor <;> simp [adminAuth, adminLogin, h]

/-- Witness for admin_unconfigured at a concrete configuration. -/
theorem admin_unconfigured_witness :
    adminAuth (fun _ _ => true) { adminPassword := "", adminSessionSecret := "s" } "c"
      = .reject 503 "auth_not_configured"
    ∧ adminLogin none { adminPassword := "", adminSessionSecret := "s" } none
      = { status := 400, errorCode := some "auth_disabled" } :=
  admin_unconfigured (fun _ _ => true)
    { adminPassword := "", adminSessionSecret := "s" } "c" none none rfl

/-! ## C6 -/

/-- C6 counterexample: a positive expires_in below one day is not clamped up
to one day; the handler falls back to the 30-day default, so the stored
expiry is creation time plus 30 days, not plus one day. -/
theorem expiry_subday_counterexample :
    calcExpiryDays 30 30 "3600" = 30
    ∧ specClampExpiryDays 30 30 "3600" = 1
    ∧ calcExpiresAt 30 30 "3600" 0 = 2592000
    ∧ (2592000 : Int) ≠ 86400 := by
  refine ⟨?_, ?_, ?_, ?_⟩ <;> decide

/-- C6 amended: in both upload paths, expires_in converts to whole days by
integer division by 86400; the result is used only when it lies in
[1, MaxExpiryDays], and otherwise (absent field, unparsable or non-positive
value, sub-day value, or value above the maximum) the expiry falls back to
DefaultExpiryDays; stored expiry is creation time plus that many days. -/
theorem expiry_days_characterization :
    (∀ d m : Int, calcExpiryDays d m "" = d)
    ∧ (∀ d m : Int, ∀ s : String, parseGoInt s = none → calcExpiryDays d m s = d)
    ∧ (∀ d m : Int, ∀ s : String, ∀ sec : Int, s ≠ "" → parseGoInt s = some sec →
        sec ≤ 0 → calcExpiryDays d m s = d)
    ∧ (∀ d m : Int, ∀ s : String, ∀ sec : Int, s ≠ "" → parseGoInt s = some sec →
        0 < sec → sec < 86400 → calcExpiryDays d m s = d)
    ∧ (∀ d m : Int, ∀ s : String, ∀ sec : Int, s ≠ "" → parseGoInt s = some sec →
        0 < sec → m < sec / 86400 → calcExpiryDays d m s = d)
    ∧ (∀ d m : Int, ∀ s : String, ∀ sec : Int, s ≠ "" → parseGoInt s = some sec →
        0 < sec → 1 ≤ sec / 86400 → sec / 86400 ≤ m → calcExpiryDays d m s = sec / 86400)
    ∧ (∀ d m now : Int, ∀ s : String,
        calcExpiresAt d m s now = now + calcExpiryDays d m s * 86400) := by
  refine ⟨fun d m => rfl, ?_, ?_, ?_, ?_, ?_, fun d m now s => rfl⟩
  · intro d m s hp
    unfold calcExpiryDays
    split
    · rfl
    · rw [hp]
  · intro d m s sec hs hp hsec
    unfold calcExpiryDays
    rw [if_neg hs, hp]
    simp only
    rw [if_neg (by omega)]
  · intro d m s sec hs hp hpos hlt
    unfold calcExpiryDays
    rw [if_neg hs, hp]
    simp only
    rw [if_pos hpos]
    split
    · omega
    · rfl
  · intro d m s sec hs hp hpos hgt
    unfold calcExpiryDays
    rw [if_neg hs, hp]
    simp only
    rw [if_pos hpos]
    split
    · omega
    · rfl
  · intro d m s sec hs hp hpos h1 h2
    unfold calcExpiryDays
    rw [if_neg hs, hp]
    simp only
    rw [if_pos hpos, if_pos (by omega : sec / 86400 > 0 ∧ sec / 86400 ≤ m)]

/-- Witness for expiry_days_characterization: expires_in of five days with a
30-day maximum is used as given. -/
theorem expiry_days_characterization_witness :
    calcExpiryDays 30 30 "432000" = 5 := by
  have h := expiry_days_characterization.2.2.2.2.2.1 30 30 "432000" 432000
    (by decide) (by decide) (by decide) (by decide) (by decide)
  simpa using h

/-! ## C7 -/

/-- C7: on every exit path of the completion step (not connected, temp read
failure, upstream failure, id generation failure, insert failure, success)
the deferred cleanup removes both the temp file and the Upload row, and a
later HEAD on the upload id answers 404 not_found. -/
theorem completion_cleans_up (fx : CryptoFns) (cfg : Cfg) (env : CompletionEnv)
    (st : ServerState) (uploadID : String) (upload : UploadRow) :
    getTemp (processCompletedUpload fx cfg env st uploadID upload).temps uploadID = none
    ∧ getUploadByID (processCompletedUpload fx cfg env st uploadID upload).uploads
        uploadID = none
    ∧ (uploadID ≠ "" →
        tusHead (processCompletedUpload fx cfg env st uploadID upload) uploadID
          = { status := 404, errorCode := some "not_found" }) := by
  unfold processCompletedUpload completionCleanup
  refine ⟨getTemp_filter_ne _ _, getUploadByID_filter_ne _ _, fun hid => ?_⟩
  unfold tusHead
  rw [if_neg hid]
  rw [show getUploadByID
        ((processCompletedUploadBody fx cfg env st uploadID upload).uploads.filter
          (fun u => u.id ≠ uploadID)) uploadID = none from getUploadByID_filter_ne _ _]

/-- Witness for completion_cleans_up on a concrete failing run (upstream not
connected). -/
theorem completion_cleans_up_witness :
    getTemp (processCompletedUpload
      { hashFile := fun _ => "h", hashPassword := fun _ => none,
        checkPassword := fun _ _ => false, detectContentType := fun _ => "t" }
      { maxUploadSize := 100, defaultExpiryDays := 30, maxExpiryDays := 30 }
      { now := 0, isConnected := false, waUpload := none, newFileID := none,
        insertOk := true }
      { files := [],
        uploads := [{ id := "u9", filename := none, fileSize := some 3, offset := 3, metadata := none }],
        temps := [("u9", [1, 2, 3])],
        logs := [] }
      "u9"
      { id := "u9", filename := none, fileSize := some 3, offset := 3,
        metadata := none }).temps "u9" = none
    ∧ tusHead (processCompletedUpload
      { hashFile := fun _ => "h", hashPassword := fun _ => none,
        checkPassword := fun _ _ => false, detectContentType := fun _ => "t" }
      { maxUploadSize := 100, defaultExpiryDays := 30, maxExpiryDays := 30 }
      { now := 0, isConnected := false, waUpload := none, newFileID := none,
        insertOk := true }
      { files := [],
        uploads := [{ id := "u9", filename := none, fileSize := some 3, offset := 3, metadata := none }],
        temps := [("u9", [1, 2, 3])],
        logs := [] }
      "u9"
      { id := "u9", filename := none, fileSize := some 3, offset := 3,
        metadata := none }) "u9" = { status := 404, errorCode := some "not_found" } :=
  ⟨(completion_cleans_up _ _ _ _ _ _).1,
   (completion_cleans_up _ _ _ _ _ _).2.2 (by decide)⟩

/-! ## C4 -/

/-- C4 counterexample: a PATCH whose Upload-Offset (5) differs from the
stored offset (0) but whose Tus-Resumable header is not 1.0.0 is answered
with 412 unsupported_version, not 409. -/
theorem patch_mismatch_wrong_version_counterexample :
    parseGoInt "5" = some 5
    ∧ (getUploadByID [{ id := "u2", filename := none, fileSize := some 10, offset := 0, metadata := none }]
        "u2").map UploadRow.offset = some 0
    ∧ (5 : Int) ≠ 0
    ∧ (tusPatch
        { files := [],
          uploads := [{ id := "u2", filename := none, fileSize := some 10, offset := 0, metadata := none }],
          temps := [("u2", [])],
          logs := [] }
        { tusResumable := "0.2.2", id := "u2", uploadOffset := "5",
          contentType := "application/offset+octet-stream", body := [1] }).2.status
        = 412
    ∧ (tusPatch
        { files := [],
          uploads := [{ id := "u2", filename := none, fileSize := some 10, offset := 0, metadata := none }],
          temps := [("u2", [])],
          logs := [] }
        { tusResumable := "0.2.2", id := "u2", uploadOffset := "5",
          contentType := "application/offset+octet-stream", body := [1] }).2.status
        ≠ 409 := by
  refine ⟨?_, ?_, ?_, ?_, ?_⟩ <;> decide

/-- C4 amended: a PATCH carrying the correct Tus-Resumable version on an
existing upload whose Upload-Offset parses to a value different from the
stored offset is answered 409 offset_mismatch with the current offset in the
body, the whole server state (temp file included) is unchanged, and no
completion step is spawned. -/
theorem patch_offset_conflict (st : ServerState) (req : PatchRequest) (u : UploadRow)
    (clientOffset : Int)
    (hver : req.tusResumable = "1.0.0") (hid : req.id ≠ "")
    (hu : getUploadByID st.uploads req.id = some u)
    (hp : parseGoInt req.uploadOffset = some clientOffset)
    (hne : clientOffset ≠ u.offset) :
    tusPatch st req
      = (st, { status := 409, errorCode := some "offset_mismatch",
               currentOffset := some u.offset, spawnCompletion := false }) := by
  unfold tusPatch
  rw [if_neg (by simp [hver]), if_neg hid, hu, hp]
  simp only [if_pos hne]

/-- Witness for patch_offset_conflict on a concrete mismatching PATCH. -/
theorem patch_offset_conflict_witness :
    tusPatch
      { files := [],
        uploads := [{ id := "u3", filename := none, fileSize := some 10, offset := 4, metadata := none }],
        temps := [("u3", [9, 9, 9, 9])],
        logs := [] }
      { tusResumable := "1.0.0", id := "u3", uploadOffset := "0",
        contentType := "application/offset+octet-stream", body := [1, 2] }
      = ({ files := [],
           uploads := [{ id := "u3", filename := none, fileSize := some 10, offset := 4, metadata := none }],
           temps := [("u3", [9, 9, 9, 9])],
           logs := [] },
         { status := 409, errorCode := some "offset_mismatch",
           currentOffset := some 4, spawnCompletion := false }) :=
  patch_offset_conflict _ _
    { id := "u3", filename := none, fileSize := some 10, offset := 4, metadata := none }
    0 rfl (by decide) (by decide) (by decide) (by decide)

/-! ## C3 -/

/-- C3 counterexample: a PATCH whose body is longer than the remaining
declared length succeeds with 204 and advances the stored offset beyond
file_size (declared size 1, body of 2 bytes, final offset 2). -/
theorem patch_overshoot_counterexample :
    (tusPatch
      { files := [],
        uploads := [{ id := "u1", filename := some "f", fileSize := some 1, offset := 0, metadata := none }],
        temps := [("u1", [])],
        logs := [] }
      { tusResumable := "1.0.0", id := "u1", uploadOffset := "0",
        contentType := "application/offset+octet-stream", body := [1, 2] }).2.status = 204
    ∧ (getUploadByID (tusPatch
        { files := [],
          uploads := [{ id := "u1", filename := some "f", fileSize := some 1, offset := 0, metadata := none }],
          temps := [("u1", [])],
          logs := [] }
        { tusResumable := "1.0.0", id := "u1", uploadOffset := "0",
          contentType := "application/offset+octet-stream", body := [1, 2] }).1.uploads
        "u1").map UploadRow.offset = some 2
    ∧ ¬ ((2 : Int) ≤ 1) := by
  refine ⟨?_, ?_, ?_⟩ <;> decide

/-- C3 amended: upload offsets start at 0 on CREATE (with a positive declared
size) and are only changed by a successful PATCH, which advances them by the
body length: the offset stays non-negative and non-decreasing until deletion,
and stays at most file_size exactly when each PATCH body fits within the
remaining declared length — an oversized body pushes the offset past
file_size (and triggers completion) instead of being rejected. -/
theorem upload_offset_bounds :
    (∀ st req u, getUploadByID st.uploads req.id = some u →
      ((getUploadByID (tusPatch st req).1.uploads req.id).isSome = true
        ∧ ∀ u2, getUploadByID (tusPatch st req).1.uploads req.id = some u2 →
            u.offset ≤ u2.offset
            ∧ (0 ≤ u.offset → 0 ≤ u2.offset)
            ∧ u2.fileSize = u.fileSize
            ∧ ∀ size : Int, u.fileSize = some size →
                u.offset + (req.body.length : Int) ≤ size → u2.offset ≤ size))
    ∧ (∀ cfg env st req, ∀ w ∈ (tusCreate cfg env st req).1.uploads,
        w ∈ st.uploads
        ∨ (w.offset = 0 ∧ w.fileSize = parseGoInt req.uploadLength
            ∧ ∀ len : Int, parseGoInt req.uploadLength = some len → 0 < len)) := by
  constructor
  · intro st req u hu
    have hulen : (0 : Int) ≤ (req.body.length : Int) := Int.natCast_nonneg _
    have unchanged : (getUploadByID st.uploads req.id).isSome = true
        ∧ ∀ u2, getUploadByID st.uploads req.id = some u2 →
            u.offset ≤ u2.offset
            ∧ (0 ≤ u.offset → 0 ≤ u2.offset)
            ∧ u2.fileSize = u.fileSize
            ∧ ∀ size : Int, u.fileSize = some size →
                u.offset + (req.body.length : Int) ≤ size → u2.offset ≤ size := by
      refine ⟨by rw [hu]; rfl, fun u2 hu2 => ?_⟩
      rw [hu] at hu2
      cases hu2
      exact ⟨le_refl _, fun h => h, rfl, fun size _ hle => by omega⟩
    have hid : u.id = req.id := by
      have := List.find?_some hu
      simpa using this
    unfold tusPatch
    split
    · exact unchanged
    split
    · exact unchanged
    split
    · rename_i heq
      rw [hu] at heq
      cases heq
    rename_i u3 heq
    rw [hu] at heq
    injection heq with heq
    subst heq
    split
    · exact unchanged
    split
    · exact unchanged
    split
    · exact unchanged
    split
    · exact unchanged
    rename_i data ht
    refine ⟨?_, ?_⟩
    · show (getUploadByID (st.uploads.map fun w =>
        if w.id = req.id
        then { w with offset := u.offset + (req.body.length : Int) } else w)
        req.id).isSome = true
      rw [getUploadByID_map_update, hu]
      rfl
    · intro u2 hu2
      have hval : getUploadByID (st.uploads.map fun w =>
            if w.id = req.id
            then { w with offset := u.offset + (req.body.length : Int) } else w) req.id
          = some { u with offset := u.offset + (req.body.length : Int) } := by
        rw [getUploadByID_map_update, hu]
        simp [hid]
      have huv := hu2.symm.trans hval
      injection huv with huv
      subst huv
      refine ⟨by dsimp only; omega, fun h => by dsimp only; omega, rfl,
        fun size hs hle => by dsimp only; omega⟩
  · intro cfg env st req w hw
    unfold tusCreate at hw
    split at hw
    · exact Or.inl hw
    split at hw
    · exact Or.inl hw
    rename_i uploadLength hparse
    split at hw
    · exact Or.inl hw
    rename_i hpos
    split at hw
    · exact Or.inl hw
    split at hw
    · exact Or.inl hw
    rename_i uploadID huid
    split at hw
    · exact Or.inl hw
    split at hw
    · -- temp creation failed: the fresh row is rolled back
      have hmem := List.mem_filter.mp hw
      rcases List.mem_append.mp hmem.1 with hleft | hnew
      · exact Or.inl hleft
      · exfalso
        have hne := hmem.2
        simp only [List.mem_singleton] at hnew
        subst hnew
        simp at hne
    · rcases List.mem_append.mp hw with hleft | hnew
      · exact Or.inl hleft
      · simp only [List.mem_singleton] at hnew
        subst hnew
        refine Or.inr ⟨rfl, by rw [hparse], fun len hlen => ?_⟩
        rw [hparse] at hlen
        cases hlen
        omega

/-- Witness for upload_offset_bounds: after a fitting one-byte PATCH at
offset 0 the row is still found. -/
theorem upload_offset_bounds_witness :
    (getUploadByID (tusPatch
      { files := [],
        uploads := [{ id := "u4", filename := none, fileSize := some 10, offset := 0, metadata := none }],
        temps := [("u4", [])],
        logs := [] }
      { tusResumable := "1.0.0", id := "u4", uploadOffset := "0",
        contentType := "application/offset+octet-stream", body := [7] }).1.uploads
      "u4").isSome = true :=
  (upload_offset_bounds.1 _ _
    { id := "u4", filename := none, fileSize := some 10, offset := 0, metadata := none }
    (by decide)).1

/-! ## C5 -/

/-- The post-gate tail of the download handler never produces the expiry or
deletion error codes. -/
theorem downloadServe_errorCode_ne (env : DownloadEnv) (st : ServerState)
    (f : FileRow) (id : String) :
    (downloadServe env st f id).2.errorCode ≠ some "file_expired"
    ∧ (downloadServe env st f id).2.errorCode ≠ some "file_deleted" := by
  unfold downloadServe
  split
  · simp
  split
  · simp
  dsimp only
  split
  · simp
  · simp

/-- C5 counterexample: at now exactly equal to expires_at the expiry gate
does not fire (the code tests strictly now after expires_at), so the claimed
now at-or-past expires_at boundary is wrong: here the handler proceeds to the
connection check and answers 503. -/
theorem download_at_exact_expiry_counterexample :
    (downloadHandler
      { hashFile := fun _ => "", hashPassword := fun _ => none,
        checkPassword := fun _ _ => false, detectContentType := fun _ => "" }
      { now := 100, isConnected := false, waDownload := none, incDbFail := false,
        ip := "i", userAgent := "ua" }
      { files := [{ id := "f1", filename := "a", mimeType := "text/plain", fileSize := 1, fileHash := "h", description := none, directPath := "dp", mediaKey := [], fileEncHash := [], fileSHA256 := none, passwordHash := none, maxDownloads := none, downloadCount := 0, createdAt := 0, expiresAt := 100, status := "active" }],
        uploads := [], temps := [], logs := [] }
      { id := "f1", xPassword := "", queryPassword := "" }).2
      = { status := 503, errorCode := some "whatsapp_not_connected" }
    ∧ (downloadHandler
      { hashFile := fun _ => "", hashPassword := fun _ => none,
        checkPassword := fun _ _ => false, detectContentType := fun _ => "" }
      { now := 100, isConnected := false, waDownload := none, incDbFail := false,
        ip := "i", userAgent := "ua" }
      { files := [{ id := "f1", filename := "a", mimeType := "text/plain", fileSize := 1, fileHash := "h", description := none, directPath := "dp", mediaKey := [], fileEncHash := [], fileSHA256 := none, passwordHash := none, maxDownloads := none, downloadCount := 0, createdAt := 0, expiresAt := 100, status := "active" }],
        uploads := [], temps := [], logs := [] }
      { id := "f1", xPassword := "", queryPassword := "" }).2.errorCode
      ≠ some "file_expired"
    ∧ (100 : Int) ≥ 100 := by
  refine ⟨?_, ?_, ?_⟩ <;> decide

/-- C5 amended: for an existing file the download handler answers 410
file_expired exactly when status is expired or now is strictly past
expires_at, and this gate fires before the deleted check, the password gate
and the connection check (whenever it holds, the response is 410 file_expired
with no state change, whatever the other fields and the environment say). -/
theorem download_expiry_gate (fx : CryptoFns) (env : DownloadEnv) (st : ServerState)
    (req : DownloadRequest) (f : FileRow)
    (hid : req.id ≠ "") (hf : getFileByID st.files req.id = some f) :
    ((downloadHandler fx env st req).2.errorCode = some "file_expired"
      ↔ (f.status = "expired" ∨ env.now > f.expiresAt))
    ∧ ((f.status = "expired" ∨ env.now > f.expiresAt) →
        downloadHandler fx env st req
          = (st, { status := 410, errorCode := some "file_expired" })) := by
  by_cases hexp : f.status = "expired" ∨ env.now > f.expiresAt
  · have hfire : downloadHandler fx env st req
        = (st, { status := 410, errorCode := some "file_expired" }) := by
      unfold downloadHandler
      rw [if_neg hid]
      simp only [hf]
      rw [if_pos hexp]
    exact ⟨⟨fun _ => hexp, fun _ => by rw [hfire]⟩, fun _ => hfire⟩
  · have hne : (downloadHandler fx env st req).2.errorCode ≠ some "file_expired" := by
      unfold downloadHandler
      rw [if_neg hid]
      simp only [hf]
      rw [if_neg hexp]
      repeat' split
      all_goals
        first
        | exact (downloadServe_errorCode_ne env st f req.id).1
        | simp
    exact ⟨⟨fun hc => absurd hc hne, fun h => absurd h hexp⟩, fun h => absurd h hexp⟩

/-- Witness for download_expiry_gate: a row the janitor already marked
expired is answered 410 file_expired. -/
theorem download_expiry_gate_witness :
    downloadHandler
      { hashFile := fun _ => "", hashPassword := fun _ => none,
        checkPassword := fun _ _ => false, detectContentType := fun _ => "" }
      { now := 0, isConnected := true, waDownload := none, incDbFail := false,
        ip := "i", userAgent := "ua" }
      { files := [{ id := "f2", filename := "a", mimeType := "text/plain", fileSize := 1, fileHash := "h", description := none, directPath := "dp", mediaKey := [], fileEncHash := [], fileSHA256 := none, passwordHash := none, maxDownloads := none, downloadCount := 0, createdAt := 0, expiresAt := 100, status := "expired" }],
        uploads := [], temps := [], logs := [] }
      { id := "f2", xPassword := "", queryPassword := "" }
      = ({ files := [{ id := "f2", filename := "a", mimeType := "text/plain", fileSize := 1, fileHash := "h", description := none, directPath := "dp", mediaKey := [], fileEncHash := [], fileSHA256 := none, passwordHash := none, maxDownloads := none, downloadCount := 0, createdAt := 0, expiresAt := 100, status := "expired" }],
           uploads := [], temps := [], logs := [] },
         { status := 410, errorCode := some "file_expired" }) :=
  (download_expiry_gate _ _ _ _
    { id := "f2", filename := "a", mimeType := "text/plain", fileSize := 1, fileHash := "h", description := none, directPath := "dp", mediaKey := [], fileEncHash := [], fileSHA256 := none, passwordHash := none, maxDownloads := none, downloadCount := 0, createdAt := 0, expiresAt := 100, status := "expired" }
    (by decide) (by decide)).2 (Or.inl rfl)

/-- When the lookup succeeds and the expiry, deleted and password gates all
pass, the download handler reduces to its post-gate tail. -/
theorem downloadHandler_gates (fx : CryptoFns) (env : DownloadEnv) (st : ServerState)
    (req : DownloadRequest) (f : FileRow)
    (hid : req.id ≠ "") (hf : getFileByID st.files req.id = some f)
    (hexp : ¬ (f.status = "expired" ∨ env.now > f.expiresAt))
    (hdel : f.status ≠ "deleted")
    (hpw : passwordGatePasses fx req f) :
    downloadHandler fx env st req = downloadServe env st f req.id := by
  unfold downloadHandler
  rw [if_neg hid]
  simp only [hf]
  rw [if_neg hexp, if_neg hdel]
  unfold passwordGatePasses at hpw
  cases hph : f.passwordHash with
  | none => simp only [hph]
  | some ph =>
    simp only [hph] at hpw
    obtain ⟨hp1, hp2⟩ := hpw
    simp only [hph]
    rw [if_neg hp1, if_neg (not_not_intro hp2)]

/-! ## C9 -/

/-- C9: when all policy gates pass and the upstream fetch succeeds but the
download-count UPDATE fails with a database error (not the cap signal), the
handler still logs the access and answers 200 with the bytes, and the stored
download_count is not incremented. -/
theorem download_inc_failure_still_200 (fx : CryptoFns) (env : DownloadEnv)
    (st : ServerState) (req : DownloadRequest) (f : FileRow) (data : List Nat)
    (hid : req.id ≠ "") (hf : getFileByID st.files req.id = some f)
    (hexp : ¬ (f.status = "expired" ∨ env.now > f.expiresAt))
    (hdel : f.status ≠ "deleted")
    (hpw : passwordGatePasses fx req f)
    (hconn : env.isConnected = true)
    (hwa : env.waDownload = some data)
    (hfail : env.incDbFail = true) :
    (downloadHandler fx env st req).2.status = 200
    ∧ (downloadHandler fx env st req).2.body = some data
    ∧ (downloadHandler fx env st req).1.files = st.files
    ∧ (downloadHandler fx env st req).1.logs
        = st.logs ++ [{ fileID := req.id, action := "download", ipAddress := env.ip,
                        userAgent := env.userAgent, createdAt := env.now }] := by
  rw [downloadHandler_gates fx env st req f hid hf hexp hdel hpw]
  unfold downloadServe
  simp [hconn, hwa, hfail, incrementDownloadCountAtomically]

/-- Witness for download_inc_failure_still_200 on a concrete file and a
failing counter UPDATE. -/
theorem download_inc_failure_still_200_witness :
    (downloadHandler
      { hashFile := fun _ => "", hashPassword := fun _ => none,
        checkPassword := fun _ _ => false, detectContentType := fun _ => "" }
      { now := 0, isConnected := true, waDownload := some [5, 6], incDbFail := true,
        ip := "i", userAgent := "ua" }
      { files := [{ id := "f4", filename := "a", mimeType := "text/plain", fileSize := 2, fileHash := "h", description := none, directPath := "dp", mediaKey := [], fileEncHash := [], fileSHA256 := none, passwordHash := none, maxDownloads := some 5, downloadCount := 0, createdAt := 0, expiresAt := 100, status := "active" }],
        uploads := [], temps := [], logs := [] }
      { id := "f4", xPassword := "", queryPassword := "" }).2.status = 200
    ∧ (downloadHandler
      { hashFile := fun _ => "", hashPassword := fun _ => none,
        checkPassword := fun _ _ => false, detectContentType := fun _ => "" }
      { now := 0, isConnected := true, waDownload := some [5, 6], incDbFail := true,
        ip := "i", userAgent := "ua" }
      { files := [{ id := "f4", filename := "a", mimeType := "text/plain", fileSize := 2, fileHash := "h", description := none, directPath := "dp", mediaKey := [], fileEncHash := [], fileSHA256 := none, passwordHash := none, maxDownloads := some 5, downloadCount := 0, createdAt := 0, expiresAt := 100, status := "active" }],
        uploads := [], temps := [], logs := [] }
      { id := "f4", xPassword := "", queryPassword := "" }).2.body = some [5, 6] := by
  have h := download_inc_failure_still_200
    { hashFile := fun _ => "", hashPassword := fun _ => none,
      checkPassword := fun _ _ => false, detectContentType := fun _ => "" }
    { now := 0, isConnected := true, waDownload := some [5, 6], incDbFail := true,
      ip := "i", userAgent := "ua" }
    { files := [{ id := "f4", filename := "a", mimeType := "text/plain", fileSize := 2, fileHash := "h", description := none, directPath := "dp", mediaKey := [], fileEncHash := [], fileSHA256 := none, passwordHash := none, maxDownloads := some 5, downloadCount := 0, createdAt := 0, expiresAt := 100, status := "active" }],
      uploads := [], temps := [], logs := [] }
    { id := "f4", xPassword := "", queryPassword := "" }
    { id := "f4", filename := "a", mimeType := "text/plain", fileSize := 2, fileHash := "h", description := none, directPath := "dp", mediaKey := [], fileEncHash := [], fileSHA256 := none, passwordHash := none, maxDownloads := some 5, downloadCount := 0, createdAt := 0, expiresAt := 100, status := "active" }
    [5, 6]
    (by decide) (by decide) (by decide) (by decide)
    (by simp [passwordGatePasses]) rfl rfl rfl
  exact ⟨h.1, h.2.1⟩

/-! ## C1 -/

/-- One cap-checked increment preserves the per-row cap invariant. -/
theorem capInvariant_inc (files : List FileRow) (id : String)
    (h : capInvariant files) :
    capInvariant (incrementDownloadCountAtomically false files id).1 := by
  unfold incrementDownloadCountAtomically
  rw [if_neg (by simp)]
  split
  · intro g hg
    rcases List.mem_map.mp hg with ⟨w, hw, rfl⟩
    by_cases hc : capRowMatches id w = true
    · rw [if_pos hc]
      unfold capRowMatches at hc
      unfold capOK
      cases hm : w.maxDownloads with
      | none => trivial
      | some m =>
        rw [hm] at hc
        simp only [Bool.and_eq_true, decide_eq_true_eq] at hc
        dsimp only
        omega
    · rw [if_neg hc]
      exact h w hw
  · exact h

/-- C1: the cap-checked increment preserves the download-count invariant
over any sequence of downloads (spec-modelled store statement), and when it
reports the cap-reached signal after a successful fetch the handler answers
410 download_limit_reached. -/
theorem download_count_cap :
    (∀ files ids, capInvariant files → capInvariant (incrementMany files ids))
    ∧ (∀ fx env st req f data,
        req.id ≠ "" → getFileByID st.files req.id = some f →
        ¬ (f.status = "expired" ∨ env.now > f.expiresAt) → f.status ≠ "deleted" →
        passwordGatePasses fx req f →
        env.isConnected = true → env.waDownload = some data → env.incDbFail = false →
        (incrementDownloadCountAtomically false st.files req.id).2
          = some IncErr.capReached →
        (downloadHandler fx env st req).2
          = { status := 410, errorCode := some "download_limit_reached" }) := by
  constructor
  · intro files ids
    induction ids generalizing files with
    | nil => exact fun h => h
    | cons i t ih =>
      intro h
      exact ih _ (capInvariant_inc files i h)
  · intro fx env st req f data hid hf hexp hdel hpw hconn hwa hfail hcap
    rw [downloadHandler_gates fx env st req f hid hf hexp hdel hpw]
    unfold downloadServe
    simp [hconn, hwa, hfail, hcap]

/-- Witness for download_count_cap: a file whose download_count already
equals its max_downloads of 1 is answered 410 download_limit_reached. -/
theorem download_count_cap_witness :
    (downloadHandler
      { hashFile := fun _ => "", hashPassword := fun _ => none,
        checkPassword := fun _ _ => false, detectContentType := fun _ => "" }
      { now := 0, isConnected := true, waDownload := some [9], incDbFail := false,
        ip := "i", userAgent := "ua" }
      { files := [{ id := "f5", filename := "a", mimeType := "text/plain", fileSize := 1, fileHash := "h", description := none, directPath := "dp", mediaKey := [], fileEncHash := [], fileSHA256 := none, passwordHash := none, maxDownloads := some 1, downloadCount := 1, createdAt := 0, expiresAt := 100, status := "active" }],
        uploads := [], temps := [], logs := [] }
      { id := "f5", xPassword := "", queryPassword := "" }).2
      = { status := 410, errorCode := some "download_limit_reached" } :=
  download_count_cap.2
    { hashFile := fun _ => "", hashPassword := fun _ => none,
      checkPassword := fun _ _ => false, detectContentType := fun _ => "" }
    { now := 0, isConnected := true, waDownload := some [9], incDbFail := false,
      ip := "i", userAgent := "ua" }
    { files := [{ id := "f5", filename := "a", mimeType := "text/plain", fileSize := 1, fileHash := "h", description := none, directPath := "dp", mediaKey := [], fileEncHash := [], fileSHA256 := none, passwordHash := none, maxDownloads := some 1, downloadCount := 1, createdAt := 0, expiresAt := 100, status := "active" }],
      uploads := [], temps := [], logs := [] }
    { id := "f5", xPassword := "", queryPassword := "" }
    { id := "f5", filename := "a", mimeType := "text/plain", fileSize := 1, fileHash := "h", description := none, directPath := "dp", mediaKey := [], fileEncHash := [], fileSHA256 := none, passwordHash := none, maxDownloads := some 1, downloadCount := 1, createdAt := 0, expiresAt := 100, status := "active" }
    [9]
    (by decide) (by decide) (by decide) (by decide)
    (by simp [passwordGatePasses]) rfl rfl rfl (by decide)

/-! ## C2 -/

/-- Zero counters are neutral on the left. -/
theorem addCounters_zero_left (c : Counters) : addCounters {} c = c := by
  cases c
  simp [addCounters]

/-- Zero counters are neutral on the right. -/
theorem addCounters_zero_right (c : Counters) : addCounters c {} = c := by
  cases c
  simp [addCounters]

/-- Counter addition is associative. -/
theorem addCounters_assoc (a b c : Counters) :
    addCounters (addCounters a b) c = addCounters a (addCounters b c) := by
  simp [addCounters]
  refine ⟨?_, ?_, ?_, ?_, ?_, ?_⟩ <;> ring

/-- The zero row is neutral on the left. -/
theorem addRow_zero_left (r : HourRow) : addRow {} r = r := by
  cases r
  simp [addRow]

/-- Row addition is associative. -/
theorem addRow_assoc (a b c : HourRow) :
    addRow (addRow a b) c = addRow a (addRow b c) := by
  simp [addRow]
  refine ⟨?_, ?_, ?_, ?_, ?_, ?_, ?_⟩ <;> ring

/-- The flush row is additive in the counters. -/
theorem countersToRow_add (a b : Counters) :
    countersToRow (addCounters a b) = addRow (countersToRow a) (countersToRow b) := by
  simp [countersToRow, addCounters, addRow]

/-- Key upsert law: after SaveHourly under an hour, the stored row under
that hour grew by exactly the saved row. -/
theorem rowAt_saveHourly (db : List (Int × HourRow)) (hour : Int) (row : HourRow) :
    rowAt (saveHourly db hour row) hour = addRow (rowAt db hour) row := by
  induction db with
  | nil =>
    simp [saveHourly, rowAt, addRow_zero_left]
  | cons p t ih =>
    by_cases hp : p.1 = hour
    · unfold saveHourly
      rw [if_pos hp]
      unfold rowAt
      rw [List.find?_cons, List.find?_cons]
      simp [hp]
    · unfold saveHourly
      rw [if_neg hp]
      unfold rowAt
      rw [List.find?_cons, List.find?_cons]
      have hd : (decide (p.1 = hour)) = false := by simpa using hp
      rw [hd]
      exact ih

/-- Recording an increment adds it to the recorded total. -/
theorem totalRecorded_record (d : Counters) (t : List StatsOp) :
    totalRecorded (.record d :: t) = addCounters d (totalRecorded t) := by
  simp [totalRecorded, sumCounters]

/-- A flush step leaves the recorded total unchanged. -/
theorem totalRecorded_aggregate (t : List StatsOp) :
    totalRecorded (.aggregate :: t) = totalRecorded t := by
  simp [totalRecorded]

/-- Single induction behind the C2 law: from any starting state, the row
under the current hour grows by exactly the sum of the flush deltas, and the
flushed total plus the pending counters equals the starting counters plus
everything recorded. -/
theorem runStats_accumulate (hour : Int) (ops : List StatsOp) :
    ∀ s : StatsState,
      rowAt (runStats hour s ops).db hour
        = addRow (rowAt s.db hour) (countersToRow (sumCounters (flushDeltas s.counters ops)))
      ∧ addCounters (sumCounters (flushDeltas s.counters ops)) (runStats hour s ops).counters
        = addCounters s.counters (totalRecorded ops) := by
  induction ops with
  | nil =>
    intro s
    constructor
    · show rowAt s.db hour = addRow (rowAt s.db hour) (countersToRow {})
      cases hr : rowAt s.db hour
      simp [addRow, countersToRow]
    · show addCounters {} s.counters = addCounters s.counters {}
      rw [addCounters_zero_left, addCounters_zero_right]
  | cons op t ih =>
    intro s
    cases op with
    | record d =>
      constructor
      · exact (ih { counters := addCounters s.counters d, db := s.db }).1
      · have h2 := (ih { counters := addCounters s.counters d, db := s.db }).2
        refine h2.trans ?_
        rw [addCounters_assoc, totalRecorded_record]
    | aggregate =>
      have ih1 := (ih { counters := {}, db := flushHourly hour s.counters s.db }).1
      have ih2 := (ih { counters := {}, db := flushHourly hour s.counters s.db }).2
      constructor
      · refine ih1.trans ?_
        show addRow (rowAt (flushHourly hour s.counters s.db) hour)
            (countersToRow (sumCounters (flushDeltas {} t)))
          = addRow (rowAt s.db hour)
            (countersToRow (addCounters s.counters (sumCounters (flushDeltas {} t))))
        rw [countersToRow_add]
        unfold flushHourly
        rw [rowAt_saveHourly, addRow_assoc]
      · show addCounters
            (addCounters s.counters (sumCounters (flushDeltas {} t)))
            (runStats hour { counters := {}, db := flushHourly hour s.counters s.db } t).counters
          = addCounters s.counters (totalRecorded t)
        rw [addCounters_assoc, ih2, addCounters_zero_left]

/-- C2: starting from zero counters and no stored row, after any sequence of
recorded increments and scheduler flush steps within one hour, the
stats_hourly row under that hour equals the element-wise sum of the deltas
the flushes wrote, and row plus still-pending counters equals the element-wise
total of everything recorded — no counted event is dropped or double
counted. -/
theorem stats_hourly_accumulates (hour : Int) (ops : List StatsOp) :
    rowAt (runStats hour { counters := {}, db := [] } ops).db hour
      = countersToRow (sumCounters (flushDeltas {} ops))
    ∧ addRow (rowAt (runStats hour { counters := {}, db := [] } ops).db hour)
        (countersToRow (runStats hour { counters := {}, db := [] } ops).counters)
      = countersToRow (totalRecorded ops) := by
  obtain ⟨h1, h2⟩ := runStats_accumulate hour ops { counters := {}, db := [] }
  have hz : rowAt ((⟨{}, []⟩ : StatsState).db) hour = ({} : HourRow) := rfl
  rw [hz] at h1
  rw [addRow_zero_left] at h1
  refine ⟨h1, ?_⟩
  rw [h1, ← countersToRow_add, h2, addCounters_zero_left]

/-! ## C10 -/

/-- Folding while skipping the entries a partial function rejects is folding
over the kept entries. -/
theorem foldl_skip_eq_foldl_filterMap {α β γ : Type} (f : α → Option β) (g : γ → β → γ) :
    ∀ (l : List α) (init : γ),
      l.foldl (fun m a => (f a).elim m (g m)) init = (l.filterMap f).foldl g init := by
  intro l
  induction l with
  | nil => intro init; rfl
  | cons a t ih =>
    intro init
    cases hfa : f a with
    | none => simp [List.filterMap_cons, hfa, ih]
    | some b => simp [List.filterMap_cons, hfa, ih]

/-- C10: parseUploadMetadata accepts every header: the empty header gives
the empty map, the result is exactly the map built from the well-formed
comma-separated entries (malformed entries are silently skipped), and the
CREATE handler's status and error code never depend on the Upload-Metadata
header — no request is rejected over malformed metadata. -/
theorem parseUploadMetadata_total :
    parseUploadMetadata "" = []
    ∧ (∀ header, parseUploadMetadata header = metaMapOfPairs (wellFormedMetaPairs header))
    ∧ (∀ cfg env st req mdNew,
        ((tusCreate cfg env st { req with uploadMetadata := mdNew }).2.status
          = (tusCreate cfg env st req).2.status)
        ∧ ((tusCreate cfg env st { req with uploadMetadata := mdNew }).2.errorCode
          = (tusCreate cfg env st req).2.errorCode)) := by
  have hfun : (fun (m : List (String × String)) pair =>
        match decodeMetaPair pair with
        | some (k, v) => mapInsert m k v
        | none => m)
      = (fun (m : List (String × String)) a =>
          (decodeMetaPair a).elim m (fun b => mapInsert m b.1 b.2)) := by
    funext m a
    cases hd : decodeMetaPair a with
    | none => simp [hd]
    | some b => cases b; simp [hd]
  refine ⟨rfl, fun header => ?_, fun cfg env st req mdNew => ?_⟩
  · by_cases hh : header = ""
    · subst hh; rfl
    · unfold parseUploadMetadata metaMapOfPairs wellFormedMetaPairs
      rw [if_neg hh, if_neg hh, hfun]
      exact foldl_skip_eq_foldl_filterMap decodeMetaPair
        (fun m b => mapInsert m b.1 b.2) (header.splitOn ",") []
  · cases req with
    | mk ver len md =>
      constructor <;>
      · unfold tusCreate
        try dsimp only
        by_cases h1 : ver ≠ "1.0.0"
        · simp [if_pos h1]
        · simp only [if_neg h1]
          cases hp : parseGoInt len with
          | none => rfl
          | some L =>
            try dsimp only
            by_cases h2 : L ≤ 0
            · simp [if_pos h2]
            · simp only [if_neg h2]
              by_cases h3 : L > cfg.maxUploadSize
              · simp [if_pos h3]
              · simp only [if_neg h3]
                try dsimp only
                cases env.newUploadID with
                | none => rfl
                | some uid =>
                  try dsimp only
                  cases h4 : env.insertOk with
                  | false => simp [h4]
                  | true =>
                    simp only [h4]
                    try dsimp only
                    cases h5 : env.tempCreateOk with
                    | false => simp [h5]
                    | true => simp [h5]

end Whatsbox
